import Mathlib

/-!
Shallow embedding of the indicator engine (src/indicators.py) and the trading
strategy / signal state machine (src/strategy.py) of the repository.

Conventions of the embedding:
* Prices, indicator values and times are exact rationals (`ℚ`).  The Python
  code works on IEEE doubles; the only float-special value that actually
  arises on well-formed candle input is NaN, produced by the `0/0` division
  inside the RSI computation.  A possibly-NaN float is embedded as
  `Option ℚ` with `none` standing for NaN, and every comparison against a
  possibly-NaN value follows IEEE semantics (any comparison with NaN is
  false), matching Python/numpy behaviour.
* A pandas `DataFrame` with the columns added by `add_indicators` is a
  `List Row`, one `Row` per candle, in the same order.
* `datetime.now()` inside `TradingStrategy.analyze` is made an explicit
  `current_time` parameter (in minutes, the unit the code converts to), and
  the mutable `self.signal_cooldown` dictionary is explicit state that is
  passed in and returned.
* The module `config` is not part of the sources; its recognized options
  (the configuration surface) are gathered in a `Config` parameter.
-/

/-- One step stream of `ewm(span, adjust=False).mean()`: given the previous
smoothed value, `out[i] = out[i-1] + α * (x[i] - out[i-1])`. -/
def ewmFrom (α : ℚ) (prev : ℚ) : List ℚ → List ℚ
  | [] => []
  | x :: xs => (prev + α * (x - prev)) :: ewmFrom α (prev + α * (x - prev)) xs

/-- Exponential smoothing as computed by `Series.ewm(span=period, adjust=False).mean()`:
seeded by the first element, then the recurrence of `ewmFrom`. -/
def ewm (α : ℚ) : List ℚ → List ℚ
  | [] => []
  | x :: xs => x :: ewmFrom α x xs

/-- Smoothing factor used by pandas for `span=period`: `2 / (period + 1)`. -/
def emaAlpha (period : ℕ) : ℚ := 2 / (period + 1)

/-- Embeds `calculate_ema` of src/indicators.py. -/
def calculate_ema (data : List ℚ) (period : ℕ) : List ℚ :=
  ewm (emaAlpha period) data

/-- Successive differences `x[i] - x[i-1]` starting from a given previous value;
used to embed `Series.diff()` (whose index-0 entry is NaN and is handled at the
call site). -/
def deltasFrom (prev : ℚ) : List ℚ → List ℚ
  | [] => []
  | x :: xs => (x - prev) :: deltasFrom x xs

/-- Value of `100 - (100 / (1 + avg_gain / avg_loss))` under IEEE float
semantics, for the reachable inputs (`g ≥ 0` and `l ≥ 0`):
* `l = 0, g = 0`: the division is `0/0 = NaN`, so the RSI is NaN (`none`);
* `l = 0, g ≠ 0`: the ratio is infinite and the RSI collapses to exactly 100;
* `l ≠ 0`: the exact rational value. -/
def rsiVal (g l : ℚ) : Option ℚ :=
  if l = 0 then (if g = 0 then none else some 100)
  else some (100 - 100 / (1 + g / l))

/-- Embeds `calculate_rsi` of src/indicators.py.  `delta[0]` is NaN in pandas,
and `delta.where(delta > 0, 0)` (resp. `-delta.where(delta < 0, 0)`) sends it
to 0 in both the gain and the loss series, so the head delta is taken as 0. -/
def calculate_rsi (data : List ℚ) (period : ℕ) : List (Option ℚ) :=
  match data with
  | [] => []
  | x :: xs =>
    let deltas := (0 : ℚ) :: deltasFrom x xs
    let gains := deltas.map (fun d => max d 0)
    let losses := deltas.map (fun d => max (-d) 0)
    let avg_gains := ewm (emaAlpha period) gains
    let avg_losses := ewm (emaAlpha period) losses
    List.zipWith rsiVal avg_gains avg_losses

/-- Index-aligned triples of the `high`, `low`, `close` series. -/
def zip3 : List ℚ → List ℚ → List ℚ → List (ℚ × ℚ × ℚ)
  | h :: hs, l :: ls, c :: cs => (h, l, c) :: zip3 hs ls cs
  | _, _, _ => []

/-- True ranges of the candles after the first: with `prevClose` the previous
candle's close, `tr = max(high - low, |high - prevClose|, |low - prevClose|)`,
the row-wise `max` of the three series built in `calculate_atr`. -/
def trueRangesFrom (prevClose : ℚ) : List (ℚ × ℚ × ℚ) → List ℚ
  | [] => []
  | (h, l, c) :: rest =>
    max (h - l) (max |h - prevClose| |l - prevClose|) :: trueRangesFrom c rest

/-- True-range series: the first candle has no previous close (`close.shift()`
is NaN there and the row-wise `max` skips NaN), so its true range is
`high - low` alone. -/
def trueRanges : List (ℚ × ℚ × ℚ) → List ℚ
  | [] => []
  | (h, l, c) :: rest => (h - l) :: trueRangesFrom c rest

/-- Embeds `calculate_atr` of src/indicators.py. -/
def calculate_atr (high low close : List ℚ) (period : ℕ) : List ℚ :=
  ewm (emaAlpha period) (trueRanges (zip3 high low close))

/-- One row of a DataFrame after `add_indicators`: the close price of the
candle together with the four derived columns.  `rsi` may be NaN. -/
structure Row where
  close : ℚ
  ema_fast : ℚ
  ema_slow : ℚ
  rsi : Option ℚ
  atr : ℚ
deriving DecidableEq

/-- The last row of a DataFrame (`df.iloc[-1]`), if any. -/
def getLastRow (df : List Row) : Option Row :=
  match df.reverse with
  | [] => none
  | c :: _ => some c

/-- The last two rows of a DataFrame, as `(df.iloc[-2], df.iloc[-1])`;
`none` exactly when the DataFrame has fewer than 2 rows. -/
def lastTwo (df : List Row) : Option (Row × Row) :=
  match df.reverse with
  | c :: p :: _ => some (p, c)
  | _ => none

/-- Market bias, the closed set of strings returned by `get_trend_direction`. -/
inductive Trend where
  | bullish
  | bearish
  | neutral
deriving DecidableEq

/-- Embeds `get_trend_direction` of src/indicators.py (the guard
`df.empty or len(df) < 2` is `df.length < 2`). -/
def get_trend_direction (df : List Row) : Trend :=
  if df.length < 2 then .neutral
  else
    match getLastRow df with
    | none => .neutral
    | some last_row =>
      if last_row.ema_fast > last_row.ema_slow ∧ last_row.close > last_row.ema_slow then .bullish
      else if last_row.ema_fast < last_row.ema_slow ∧ last_row.close < last_row.ema_slow then .bearish
      else .neutral

/-- Embeds `is_price_near_ema` of src/indicators.py. -/
def is_price_near_ema (price ema proximity_points : ℚ) : Bool :=
  decide (|price - ema| ≤ proximity_points)

/-- IEEE `≤` on possibly-NaN values: false whenever either side is NaN. -/
def qle : Option ℚ → Option ℚ → Bool
  | some a, some b => decide (a ≤ b)
  | _, _ => false

/-- IEEE `<` on possibly-NaN values: false whenever either side is NaN. -/
def qlt : Option ℚ → Option ℚ → Bool
  | some a, some b => decide (a < b)
  | _, _ => false

/-- Embeds `check_rsi_cross` of src/indicators.py.  The Python chained
comparison `previous_rsi <= level < current_rsi` is the conjunction of the two
comparisons, each false on NaN. -/
def check_rsi_cross (current_rsi previous_rsi : Option ℚ) (level : ℚ)
    (direction : String) : Bool :=
  if direction = "above" then qle previous_rsi (some level) && qlt (some level) current_rsi
  else if direction = "below" then qle (some level) previous_rsi && qlt current_rsi (some level)
  else false

/-- Embeds `check_candle_close` of src/indicators.py (`close` and `ema` are
never NaN on well-formed input). -/
def check_candle_close (current_close ema : ℚ) (direction : String) : Bool :=
  if direction = "above" then decide (current_close > ema)
  else if direction = "below" then decide (current_close < ema)
  else false

/-- Configuration surface consumed by the strategy (the `config` module is not
among the sources; its recognized options become explicit parameters). -/
structure Config where
  EMA_PROXIMITY_POINTS : ℚ
  RSI_BUY_ZONE : ℚ × ℚ
  RSI_SELL_ZONE : ℚ × ℚ
  RSI_LEVEL : ℚ
  ATR_MIN_VALUE : ℚ
  ENABLE_READY_ALERT : Bool
  STOP_LOSS_POINTS : ℚ
  TAKE_PROFIT_POINTS : ℚ
  SIGNAL_COOLDOWN_CANDLES : ℚ
deriving DecidableEq

/-- Result of `TradingStrategy.analyze_trend`.  The last three fields are the
extra dictionary entries present only in the sufficient-history case. -/
structure TrendInfo where
  direction : Trend
  valid : Bool
  ema_fast : Option ℚ
  ema_slow : Option ℚ
  close : Option ℚ
deriving DecidableEq

/-- Embeds `TradingStrategy.analyze_trend` of src/strategy.py.  Note the code
sets `valid` to `trend != 'neutral'`, not to the sufficient-history test. -/
def analyze_trend (df_5m : List Row) : TrendInfo :=
  if df_5m.length < 2 then ⟨.neutral, false, none, none, none⟩
  else
    match getLastRow df_5m with
    | none => ⟨.neutral, false, none, none, none⟩
    | some last_row =>
      let trend := get_trend_direction df_5m
      ⟨trend, decide (trend ≠ .neutral),
        some last_row.ema_fast, some last_row.ema_slow, some last_row.close⟩

/-- The closed set of signal kinds produced by the strategy. -/
inductive SignalType where
  | ready_buy
  | entry_buy
  | ready_sell
  | entry_sell
deriving DecidableEq

/-- The Arabic message text built for each signal, abstracted to the numeric
values the f-string interpolates (in source order).  The entry messages are
the only place the stop-loss and take-profit levels appear. -/
inductive Reason where
  | readyBuy (close ema_fast : ℚ) (previous_rsi current_rsi : Option ℚ)
  | entryBuy (close ema_fast : ℚ) (current_rsi : Option ℚ) (stop_loss take_profit : ℚ)
  | readySell (close ema_fast : ℚ) (previous_rsi current_rsi : Option ℚ)
  | entrySell (close ema_fast : ℚ) (current_rsi : Option ℚ) (stop_loss take_profit : ℚ)
deriving DecidableEq

/-- Embeds `TradingStrategy.check_buy_conditions` of src/strategy.py.  The
guard `df_1m.empty or len(df_1m) < 2` is the `lastTwo df_1m = none` case;
`0.0001` is the exact rational `1/10000`. -/
def check_buy_conditions (cfg : Config) (df_1m : List Row) (trend_info : TrendInfo) :
    Option (SignalType × Reason) :=
  match lastTwo df_1m with
  | none => none
  | some (previous, current) =>
    if trend_info.direction ≠ .bullish then none
    else
      let price_near_ema := is_price_near_ema current.close current.ema_fast cfg.EMA_PROXIMITY_POINTS
      let rsi_in_zone := qle (some cfg.RSI_BUY_ZONE.1) current.rsi && qle current.rsi (some cfg.RSI_BUY_ZONE.2)
      let rsi_crossed := check_rsi_cross current.rsi previous.rsi cfg.RSI_LEVEL "above"
      let candle_closed_above := check_candle_close current.close current.ema_fast "above"
      let atr_valid := decide (current.atr ≥ cfg.ATR_MIN_VALUE)
      if atr_valid = false then none
      else if price_near_ema && rsi_in_zone && rsi_crossed && cfg.ENABLE_READY_ALERT then
        some (.ready_buy, .readyBuy current.close current.ema_fast previous.rsi current.rsi)
      else if price_near_ema && rsi_crossed && candle_closed_above then
        some (.entry_buy, .entryBuy current.close current.ema_fast current.rsi
          (current.close - cfg.STOP_LOSS_POINTS * (1 / 10000))
          (current.close + cfg.TAKE_PROFIT_POINTS * (1 / 10000)))
      else none

/-- Embeds `TradingStrategy.check_sell_conditions` of src/strategy.py. -/
def check_sell_conditions (cfg : Config) (df_1m : List Row) (trend_info : TrendInfo) :
    Option (SignalType × Reason) :=
  match lastTwo df_1m with
  | none => none
  | some (previous, current) =>
    if trend_info.direction ≠ .bearish then none
    else
      let price_near_ema := is_price_near_ema current.close current.ema_fast cfg.EMA_PROXIMITY_POINTS
      let rsi_in_zone := qle (some cfg.RSI_SELL_ZONE.1) current.rsi && qle current.rsi (some cfg.RSI_SELL_ZONE.2)
      let rsi_crossed := check_rsi_cross current.rsi previous.rsi cfg.RSI_LEVEL "below"
      let candle_closed_below := check_candle_close current.close current.ema_fast "below"
      let atr_valid := decide (current.atr ≥ cfg.ATR_MIN_VALUE)
      if atr_valid = false then none
      else if price_near_ema && rsi_in_zone && rsi_crossed && cfg.ENABLE_READY_ALERT then
        some (.ready_sell, .readySell current.close current.ema_fast previous.rsi current.rsi)
      else if price_near_ema && rsi_crossed && candle_closed_below then
        some (.entry_sell, .entrySell current.close current.ema_fast current.rsi
          (current.close + cfg.STOP_LOSS_POINTS * (1 / 10000))
          (current.close - cfg.TAKE_PROFIT_POINTS * (1 / 10000)))
      else none

/-- The `self.signal_cooldown` dictionary: symbol → time (in minutes) of the
last entry-kind signal. -/
def Cooldown : Type := String → Option ℚ

/-- Embeds `TradingStrategy.is_in_cooldown`; `(current_time - last).total_seconds() / 60`
is `current_time - last` with time measured in minutes. -/
def is_in_cooldown (cfg : Config) (cd : Cooldown) (symbol : String) (current_time : ℚ) : Bool :=
  match cd symbol with
  | none => false
  | some last_signal_time => decide (current_time - last_signal_time < cfg.SIGNAL_COOLDOWN_CANDLES)

/-- Embeds `TradingStrategy.update_cooldown`. -/
def update_cooldown (cd : Cooldown) (symbol : String) (current_time : ℚ) : Cooldown :=
  fun s => if s = symbol then some current_time else cd s

/-- The Python test `'entry' in signal_type` on the closed set of kinds. -/
def isEntry : SignalType → Bool
  | .entry_buy => true
  | .entry_sell => true
  | _ => false

/-- The dictionary returned by `TradingStrategy.analyze` on a signal: exactly
the keys `symbol`, `type`, `reason`, `timestamp`, `price` — the stop-loss and
take-profit levels and the direction are not separate entries. -/
structure Signal where
  symbol : String
  type : SignalType
  reason : Reason
  timestamp : ℚ
  price : ℚ
deriving DecidableEq

/-- Lines 266–270 of src/strategy.py: try the buy conditions, and only if no
buy signal was produced try the sell conditions. -/
def firstSignal (cfg : Config) (df_1m : List Row) (trend_info : TrendInfo) :
    Option (SignalType × Reason) :=
  match check_buy_conditions cfg df_1m trend_info with
  | some r => some r
  | none => check_sell_conditions cfg df_1m trend_info

/-- Embeds `TradingStrategy.analyze` of src/strategy.py, returning the emitted
signal (if any) together with the updated cooldown state.  The branch where a
signal exists but the DataFrame has no last row is unreachable (a signal needs
at least 2 rows); there the code would update the cooldown and then fail on
`iloc[-1]`, which is embedded as no returned signal with the updated state. -/
def analyze (cfg : Config) (cd : Cooldown) (df_5m df_1m : List Row)
    (symbol : String) (current_time : ℚ) : Option Signal × Cooldown :=
  if is_in_cooldown cfg cd symbol current_time then (none, cd)
  else
    let trend_info := analyze_trend df_5m
    if trend_info.valid = false then (none, cd)
    else
      match firstSignal cfg df_1m trend_info with
      | none => (none, cd)
      | some (signal_type, reason) =>
        let cd2 := if isEntry signal_type then update_cooldown cd symbol current_time else cd
        match getLastRow df_1m with
        | none => (none, cd2)
        | some current => (some ⟨symbol, signal_type, reason, current_time, current.close⟩, cd2)

/-- Configuration used by the concrete scenarios: midline 50, buy zone
reaching above the midline so that ready-buy conditions are satisfiable,
cooldown window of 5 minutes. -/
def cfg0 : Config where
  EMA_PROXIMITY_POINTS := 1
  RSI_BUY_ZONE := (40, 55)
  RSI_SELL_ZONE := (50, 60)
  RSI_LEVEL := 50
  ATR_MIN_VALUE := 1
  ENABLE_READY_ALERT := true
  STOP_LOSS_POINTS := 10
  TAKE_PROFIT_POINTS := 20
  SIGNAL_COOLDOWN_CANDLES := 5

/-- A slow-timeframe row with bullish readings: fast average 3 above slow
average 2, close 4 above slow average. -/
def rowBull : Row := ⟨4, 3, 2, none, 0⟩

/-- Slow-timeframe DataFrame whose trend is bullish. -/
def df5e : List Row := [rowBull, rowBull]

/-- Fast-timeframe previous row shared by the scenarios: momentum 48 just
below the midline. -/
def rowPrev : Row := ⟨99, 100, 0, some 48, 5⟩

/-- Fast-timeframe DataFrame meeting the buy entry conditions: price within
1 of the fast average, momentum crossing 48 → 56 over the midline 50 (out of
the buy zone, so no ready alert fires first), close above the fast average,
volatility 5 above the floor. -/
def df1e : List Row := [rowPrev, ⟨101, 201 / 2, 0, some 56, 5⟩]

/-- Fast-timeframe DataFrame meeting the ready-buy conditions: momentum
crossing 48 → 52 over the midline 50 and inside the buy zone [40, 55]. -/
def df1r : List Row := [rowPrev, ⟨100, 201 / 2, 0, some 52, 5⟩]

/-- Fast-timeframe DataFrame where momentum moves 45 → 47 without crossing
the midline 50, all other buy conditions holding. -/
def df1c : List Row := [⟨99, 100, 0, some 45, 5⟩, ⟨100, 201 / 2, 0, some 47, 5⟩]

/-- Fast-timeframe DataFrame meeting every buy entry condition except the
volatility floor: volatility 1/2 below the floor 1. -/
def df1a : List Row := [rowPrev, ⟨101, 201 / 2, 0, some 56, 1 / 2⟩]

/-- The empty cooldown dictionary. -/
def emptyCd : Cooldown := fun _ => none

/-- The entry signal emitted on `df5e`/`df1e` at time 0. -/
def sigE : Signal :=
  ⟨"EURUSD", .entry_buy,
    .entryBuy 101 (201 / 2) (some 56) (101 - 10 * (1 / 10000)) (101 + 20 * (1 / 10000)), 0, 101⟩

/-- The ready signal emitted on `df5e`/`df1r` at time 1 when no cooldown is
active. -/
def sigR : Signal :=
  ⟨"EURUSD", .ready_buy, .readyBuy 100 (201 / 2) (some 48) (some 52), 1, 100⟩

/-- Slow-timeframe DataFrame with 2 rows and a legitimate neutral reading:
fast average 2 above slow average 1, but close equal to the slow average. -/
def dfNeutral : List Row := [⟨1, 2, 1, none, 0⟩, ⟨1, 2, 1, none, 0⟩]

/-- Slow-timeframe row of the bullish classification scenario:
fast average 1.1050, slow average 1.1020, close 1.1060. -/
def rowTrendScenario : Row := ⟨1106 / 1000, 1105 / 1000, 1102 / 1000, none, 0⟩

/-- Slow-timeframe DataFrame of the bullish classification scenario. -/
def dfTrendScenario : List Row := [rowTrendScenario, rowTrendScenario]

/-- Smoothing a constant stream from an equal seed leaves it unchanged. -/
theorem ewmFrom_replicate (α c : ℚ) : ∀ n, ewmFrom α c (List.replicate n c) = List.replicate n c := by
  intro n
  induction n with
  | zero => rfl
  | succ k ih =>
    have hc : c + α * (c - c) = c := by ring
    simp only [List.replicate_succ, ewmFrom, hc, ih]

/-- Exponential smoothing of a constant sequence is that sequence. -/
theorem ewm_replicate (α c : ℚ) (n : ℕ) : ewm α (List.replicate n c) = List.replicate n c := by
  cases n with
  | zero => rfl
  | succ k => simp only [List.replicate_succ, ewm, ewmFrom_replicate]

/-- With a smoothing factor in `[0, 1]`, smoothing keeps nonnegative streams
nonnegative. -/
theorem ewmFrom_nonneg (α : ℚ) (h0 : 0 ≤ α) (h1 : α ≤ 1) :
    ∀ (xs : List ℚ) (prev : ℚ), 0 ≤ prev → (∀ x ∈ xs, 0 ≤ x) →
      ∀ y ∈ ewmFrom α prev xs, 0 ≤ y := by
  intro xs
  induction xs with
  | nil => intro prev _ _ y hy; simp [ewmFrom] at hy
  | cons x rest ih =>
    intro prev hprev hxs y hy
    have hx : 0 ≤ x := hxs x (List.mem_cons_self x rest)
    have hstep : 0 ≤ prev + α * (x - prev) := by
      have heq : prev + α * (x - prev) = (1 - α) * prev + α * x := by ring
      rw [heq]
      have := mul_nonneg (sub_nonneg.mpr h1) hprev
      have := mul_nonneg h0 hx
      linarith
    simp only [ewmFrom, List.mem_cons] at hy
    rcases hy with rfl | hy
    · exact hstep
    · exact ih (prev + α * (x - prev)) hstep (fun z hz => hxs z (List.mem_cons_of_mem x hz)) y hy

/-- With a smoothing factor in `[0, 1]`, every smoothed value of a
nonnegative sequence is nonnegative. -/
theorem ewm_nonneg (α : ℚ) (h0 : 0 ≤ α) (h1 : α ≤ 1) (xs : List ℚ)
    (hxs : ∀ x ∈ xs, 0 ≤ x) : ∀ y ∈ ewm α xs, 0 ≤ y := by
  cases xs with
  | nil => intro y hy; simp [ewm] at hy
  | cons x rest =>
    intro y hy
    have hx : 0 ≤ x := hxs x (List.mem_cons_self x rest)
    simp only [ewm, List.mem_cons] at hy
    rcases hy with rfl | hy
    · exact hx
    · exact ewmFrom_nonneg α h0 h1 rest x hx
        (fun z hz => hxs z (List.mem_cons_of_mem x hz)) y hy

/-- True ranges after the first candle are nonnegative whenever each candle
has `low ≤ high`. -/
theorem trueRangesFrom_nonneg :
    ∀ (ts : List (ℚ × ℚ × ℚ)) (pc : ℚ), (∀ x ∈ ts, x.2.1 ≤ x.1) →
      ∀ y ∈ trueRangesFrom pc ts, 0 ≤ y := by
  intro ts
  induction ts with
  | nil => intro pc _ y hy; simp [trueRangesFrom] at hy
  | cons t rest ih =>
    intro pc hts y hy
    obtain ⟨h, l, c⟩ := t
    have hhl : l ≤ h := hts (h, l, c) (List.mem_cons_self _ rest)
    simp only [trueRangesFrom, List.mem_cons] at hy
    rcases hy with rfl | hy
    · exact le_trans (sub_nonneg.mpr hhl) (le_max_left _ _)
    · exact ih c (fun z hz => hts z (List.mem_cons_of_mem _ hz)) y hy

/-- The whole true-range series is nonnegative whenever each candle has
`low ≤ high`. -/
theorem trueRanges_nonneg (ts : List (ℚ × ℚ × ℚ)) (hts : ∀ x ∈ ts, x.2.1 ≤ x.1) :
    ∀ y ∈ trueRanges ts, 0 ≤ y := by
  cases ts with
  | nil => intro y hy; simp [trueRanges] at hy
  | cons t rest =>
    intro y hy
    obtain ⟨h, l, c⟩ := t
    have hhl : l ≤ h := hts (h, l, c) (List.mem_cons_self _ rest)
    simp only [trueRanges, List.mem_cons] at hy
    rcases hy with rfl | hy
    · exact sub_nonneg.mpr hhl
    · exact trueRangesFrom_nonneg rest c (fun z hz => hts z (List.mem_cons_of_mem _ hz)) y hy

/-- The pandas smoothing factor lies in `[0, 1]` for any period ≥ 1. -/
theorem emaAlpha_mem (period : ℕ) (hp : 1 ≤ period) :
    0 ≤ emaAlpha period ∧ emaAlpha period ≤ 1 := by
  unfold emaAlpha
  constructor
  · positivity
  · rw [div_le_one (by positivity)]
    have : (1 : ℚ) ≤ (period : ℚ) := by exact_mod_cast hp
    linarith

/-- C7: every value of the smoothed volatility-range series is nonnegative,
for any candle sequence whose candles satisfy `low ≤ high` and any smoothing
period ≥ 1 (the true range of the first candle being `high − low` alone and
every later one the `max` of `high−low`, `|high − prev close|`,
`|low − prev close|`, as `trueRanges` defines). -/
theorem atr_series_nonneg (high low close : List ℚ) (period : ℕ) (hp : 1 ≤ period)
    (hwf : ∀ x ∈ zip3 high low close, x.2.1 ≤ x.1) :
    (calculate_atr high low close period).all (fun v => decide (0 ≤ v)) = true := by
  obtain ⟨h0, h1⟩ := emaAlpha_mem period hp
  rw [List.all_eq_true]
  intro v hv
  exact decide_eq_true
    (ewm_nonneg _ h0 h1 _ (trueRanges_nonneg _ hwf) v hv)

/-- Witness for C7 at a concrete two-candle sequence. -/
theorem atr_series_nonneg_witness :
    (calculate_atr [2, 3] [1, 1] [1, 2] 14).all (fun v => decide (0 ≤ v)) = true :=
  atr_series_nonneg [2, 3] [1, 1] [1, 2] 14 (by norm_num) (by norm_num [zip3])

/-- C6: on a constant-price candle sequence the trend-following average (for
any period, fast or slow) equals the constant price at every index; but the
momentum oscillator does not converge to the saturating maximum — it is NaN
at every index, because the smoothed gains and losses are both zero and the
code divides them without a zero-loss guard. -/
theorem constant_price_ema_fixed_rsi_nan :
    (∀ (n : ℕ) (c : ℚ) (period : ℕ),
        calculate_ema (List.replicate n c) period = List.replicate n c) ∧
    calculate_rsi (List.replicate 3 3) 14 = [none, none, none] := by
  constructor
  · intro n c period
    exact ewm_replicate (emaAlpha period) c n
  · norm_num +decide [calculate_rsi, deltasFrom, ewm, ewmFrom, emaAlpha, rsiVal,
      List.replicate]

/-- C1: when the smoothed loss is zero and the smoothed gain is positive the
momentum value does resolve to the saturating maximum 100 (index 1 of the
rising sequence), but when the smoothed gain is also zero the value is NaN
(`none`), not 100 — both indices of the constant sequence, and index 0 of
every sequence, where the code computes `0/0`. -/
theorem rsi_zero_loss_saturation_gap :
    calculate_rsi [1, 1] 14 = [none, none] ∧ calculate_rsi [1, 2] 14 = [none, some 100] := by
  constructor
  · norm_num +decide [calculate_rsi, deltasFrom, ewm, ewmFrom, emaAlpha, rsiVal]
  · norm_num +decide [calculate_rsi, deltasFrom, ewm, ewmFrom, emaAlpha, rsiVal]

/-- A DataFrame with at least 2 rows has a last row. -/
theorem getLastRow_of_two_le (df : List Row) (h : 2 ≤ df.length) :
    ∃ r, getLastRow df = some r := by
  unfold getLastRow
  cases hrev : df.reverse with
  | nil =>
    exfalso
    have hlen0 : df.length = 0 := by
      have h2 := congrArg List.length hrev
      rwa [List.length_reverse, List.length_nil] at h2
    omega
  | cons c rest => exact ⟨c, by simp only [hrev]⟩

/-- C4: on a DataFrame with at least 2 rows the trend classifier returns
bullish iff `ema_fast > ema_slow` and `close > ema_slow` at the last row,
bearish iff both comparisons are reversed strictly, and neutral exactly
otherwise. -/
theorem trend_direction_characterization (df : List Row) (last_row : Row)
    (hlast : getLastRow df = some last_row) (hlen : 2 ≤ df.length) :
    (get_trend_direction df = .bullish ↔
        (last_row.ema_fast > last_row.ema_slow ∧ last_row.close > last_row.ema_slow)) ∧
    (get_trend_direction df = .bearish ↔
        (last_row.ema_fast < last_row.ema_slow ∧ last_row.close < last_row.ema_slow)) ∧
    (get_trend_direction df = .neutral ↔
        (¬(last_row.ema_fast > last_row.ema_slow ∧ last_row.close > last_row.ema_slow) ∧
         ¬(last_row.ema_fast < last_row.ema_slow ∧ last_row.close < last_row.ema_slow))) := by
  have hne : ¬ df.length < 2 := by omega
  simp only [get_trend_direction, if_neg hne, hlast]
  split_ifs with h1 h2
  · refine ⟨by simp [h1], ?_, ?_⟩
    · constructor
      · intro hc; cases hc
      · rintro ⟨ha, -⟩; exact absurd h1.1 (lt_asymm ha)
    · constructor
      · intro hc; cases hc
      · rintro ⟨hn1, -⟩; exact absurd h1 hn1
  · refine ⟨?_, by simp [h2], ?_⟩
    · constructor
      · intro hc; cases hc
      · rintro ⟨ha, -⟩; exact absurd h2.1 (lt_asymm ha)
    · constructor
      · intro hc; cases hc
      · rintro ⟨-, hn2⟩; exact absurd h2 hn2
  · refine ⟨?_, ?_, by simp [h1, h2]⟩
    · constructor
      · intro hc; cases hc
      · intro hc; exact absurd hc h1
    · constructor
      · intro hc; cases hc
      · intro hc; exact absurd hc h2

/-- Witness for C4 at the scenario fast_average = 1.1050,
slow_average = 1.1020, close = 1.1060: the bias is bullish. -/
theorem trend_direction_characterization_witness :
    get_trend_direction dfTrendScenario = Trend.bullish :=
  (trend_direction_characterization dfTrendScenario rowTrendScenario
      (by norm_num [getLastRow, dfTrendScenario]) (by norm_num [dfTrendScenario])).1.mpr
    (by norm_num [rowTrendScenario])

/-- C9 (amended): the validity flag of the trend analysis does not isolate
insufficient history — it is true exactly when the sequence has at least 2
rows AND the bias is non-neutral, and the reported direction always equals
the classifier's output; a legitimate neutral reading is reported with
`valid = false`. -/
theorem trend_validity_flag_conflation (df : List Row) :
    ((analyze_trend df).valid = true ↔ 2 ≤ df.length ∧ get_trend_direction df ≠ .neutral) ∧
    (analyze_trend df).direction = get_trend_direction df := by
  by_cases hl : df.length < 2
  · constructor
    · simp only [analyze_trend, if_pos hl]
      constructor
      · intro hc; cases hc
      · rintro ⟨hle, -⟩; omega
    · simp only [analyze_trend, get_trend_direction, if_pos hl]
  · obtain ⟨r, hr⟩ := getLastRow_of_two_le df (by omega)
    simp only [analyze_trend, if_neg hl, hr]
    constructor
    · simp only [decide_eq_true_eq]
      constructor
      · intro hne; exact ⟨by omega, hne⟩
      · rintro ⟨-, hne⟩; exact hne
    · trivial

/-- Counterexample for C9: a 2-row sequence whose last row has
`ema_fast = 2 > ema_slow = 1` but `close = 1`, a legitimate neutral reading,
is reported with `valid = false`, indistinguishable by the flag from
insufficient history. -/
theorem trend_validity_flag_counterexample :
    2 ≤ dfNeutral.length ∧
      analyze_trend dfNeutral = ⟨.neutral, false, some 2, some 1, some 1⟩ := by
  constructor
  · norm_num [dfNeutral]
  · norm_num +decide [analyze_trend, get_trend_direction, getLastRow, dfNeutral]

/-- The second component given by `lastTwo` is the last row. -/
theorem lastTwo_getLastRow (df : List Row) (p c : Row) (h : lastTwo df = some (p, c)) :
    getLastRow df = some c := by
  unfold lastTwo at h
  unfold getLastRow
  cases hrev : df.reverse with
  | nil => simp [hrev] at h
  | cons a rest =>
    cases rest with
    | nil => simp [hrev] at h
    | cons b rest2 =>
      simp only [hrev, Option.some.injEq, Prod.mk.injEq] at h
      simp only [hrev, Option.some.injEq]
      exact h.2

/-- A buy signal requires the DataFrame to have at least two rows. -/
theorem check_buy_some_lastTwo (cfg : Config) (df : List Row) (ti : TrendInfo)
    (x : SignalType × Reason) (h : check_buy_conditions cfg df ti = some x) :
    ∃ pc, lastTwo df = some pc := by
  cases hlt : lastTwo df with
  | none => simp [check_buy_conditions, hlt] at h
  | some pc => exact ⟨pc, rfl⟩

/-- A sell signal requires the DataFrame to have at least two rows. -/
theorem check_sell_some_lastTwo (cfg : Config) (df : List Row) (ti : TrendInfo)
    (x : SignalType × Reason) (h : check_sell_conditions cfg df ti = some x) :
    ∃ pc, lastTwo df = some pc := by
  cases hlt : lastTwo df with
  | none => simp [check_sell_conditions, hlt] at h
  | some pc => exact ⟨pc, rfl⟩

/-- Any produced signal requires the DataFrame to have at least two rows. -/
theorem firstSignal_some_lastTwo (cfg : Config) (df : List Row) (ti : TrendInfo)
    (x : SignalType × Reason) (h : firstSignal cfg df ti = some x) :
    ∃ pc, lastTwo df = some pc := by
  unfold firstSignal at h
  cases hb : check_buy_conditions cfg df ti with
  | some r => exact check_buy_some_lastTwo cfg df ti r hb
  | none =>
    simp only [hb] at h
    exact check_sell_some_lastTwo cfg df ti x h

/-- An upward cross reported by `check_rsi_cross` pins both momentum values:
they are non-NaN, the previous at or below the level and the current strictly
above it. -/
theorem check_rsi_cross_above_spec (cur prev : Option ℚ) (level : ℚ)
    (h : check_rsi_cross cur prev level "above" = true) :
    ∃ p c, prev = some p ∧ cur = some c ∧ p ≤ level ∧ level < c := by
  unfold check_rsi_cross at h
  rw [if_pos rfl] at h
  simp only [Bool.and_eq_true] at h
  obtain ⟨h1, h2⟩ := h
  cases hp : prev with
  | none => rw [hp] at h1; simp [qle] at h1
  | some p =>
    cases hc : cur with
    | none => rw [hc] at h2; simp [qlt] at h2
    | some c =>
      rw [hp] at h1
      rw [hc] at h2
      simp only [qle, decide_eq_true_eq] at h1
      simp only [qlt, decide_eq_true_eq] at h2
      exact ⟨p, c, rfl, rfl, h1, h2⟩

/-- C5: any signal of the buy path (ready_buy as well as entry_buy) requires
the strict momentum cross up through the midline — previous momentum ≤
midline < current momentum — and in the concrete scenario with previous
momentum 45, current momentum 47 and midline 50 under bullish bias, no buy
signal of any kind is produced even though proximity and zone hold. -/
theorem buy_signal_requires_strict_cross (cfg : Config) (df_1m : List Row) (ti : TrendInfo)
    (x : SignalType × Reason) (h : check_buy_conditions cfg df_1m ti = some x) :
    (∃ previous current p c, lastTwo df_1m = some (previous, current) ∧
        previous.rsi = some p ∧ current.rsi = some c ∧
        p ≤ cfg.RSI_LEVEL ∧ cfg.RSI_LEVEL < c) ∧
    check_buy_conditions cfg0 df1c (analyze_trend df5e) = none := by
  constructor
  · cases hlt : lastTwo df_1m with
    | none => simp [check_buy_conditions, hlt] at h
    | some pc =>
      obtain ⟨previous, current⟩ := pc
      simp only [check_buy_conditions, hlt] at h
      split_ifs at h with hdir hatr hcond1 hcond2
      · simp only [Bool.and_eq_true] at hcond1
        obtain ⟨p, c, hp, hc, hle, hlt2⟩ :=
          check_rsi_cross_above_spec current.rsi previous.rsi cfg.RSI_LEVEL hcond1.1.2
        exact ⟨previous, current, p, c, rfl, hp, hc, hle, hlt2⟩
      · simp only [Bool.and_eq_true] at hcond2
        obtain ⟨p, c, hp, hc, hle, hlt2⟩ :=
          check_rsi_cross_above_spec current.rsi previous.rsi cfg.RSI_LEVEL hcond2.1.2
        exact ⟨previous, current, p, c, rfl, hp, hc, hle, hlt2⟩
  · norm_num +decide [abs_le, analyze_trend, get_trend_direction, getLastRow, lastTwo,
      check_buy_conditions, is_price_near_ema, qle, qlt,
      check_rsi_cross, check_candle_close, cfg0, df5e, df1c, rowBull]

/-- Witness for C5: the concrete entry signal on `df1e` comes with a strict
cross (48 ≤ 50 < 56), and the 45 → 47 scenario yields no buy signal. -/
theorem buy_signal_requires_strict_cross_witness :
    (∃ previous current p c, lastTwo df1e = some (previous, current) ∧
        previous.rsi = some p ∧ current.rsi = some c ∧
        p ≤ cfg0.RSI_LEVEL ∧ cfg0.RSI_LEVEL < c) ∧
    check_buy_conditions cfg0 df1c (analyze_trend df5e) = none :=
  buy_signal_requires_strict_cross cfg0 df1e (analyze_trend df5e)
    (.entry_buy, .entryBuy 101 (201 / 2) (some 56)
      (101 - 10 * (1 / 10000)) (101 + 20 * (1 / 10000)))
    (by norm_num +decide [abs_le, check_buy_conditions, lastTwo, analyze_trend,
      get_trend_direction, getLastRow, qle, qlt, check_rsi_cross, check_candle_close,
      is_price_near_ema, cfg0, df5e, df1e, rowBull, rowPrev])

/-- When the last row's volatility is below the configured floor, the buy
path produces nothing. -/
theorem check_buy_none_of_low_atr (cfg : Config) (df : List Row) (ti : TrendInfo)
    (current : Row) (hl : getLastRow df = some current)
    (hatr : current.atr < cfg.ATR_MIN_VALUE) :
    check_buy_conditions cfg df ti = none := by
  cases hlt : lastTwo df with
  | none => simp [check_buy_conditions, hlt]
  | some pc =>
    obtain ⟨previous, cur⟩ := pc
    have h2 := lastTwo_getLastRow df previous cur hlt
    rw [hl] at h2
    have hceq : current = cur := (Option.some.injEq current cur).mp h2
    subst hceq
    simp [check_buy_conditions, hlt]
    intro _ hge
    exact absurd hge (not_le.mpr hatr)

/-- When the last row's volatility is below the configured floor, the sell
path produces nothing. -/
theorem check_sell_none_of_low_atr (cfg : Config) (df : List Row) (ti : TrendInfo)
    (current : Row) (hl : getLastRow df = some current)
    (hatr : current.atr < cfg.ATR_MIN_VALUE) :
    check_sell_conditions cfg df ti = none := by
  cases hlt : lastTwo df with
  | none => simp [check_sell_conditions, hlt]
  | some pc =>
    obtain ⟨previous, cur⟩ := pc
    have h2 := lastTwo_getLastRow df previous cur hlt
    rw [hl] at h2
    have hceq : current = cur := (Option.some.injEq current cur).mp h2
    subst hceq
    simp [check_sell_conditions, hlt]
    intro _ hge
    exact absurd hge (not_le.mpr hatr)

/-- C8: if the volatility value at the latest fast-timeframe row is below the
configured floor, the evaluation returns no signal of any kind, regardless of
the cooldown state, the trend bias and every other condition. -/
theorem low_volatility_blocks_all_signals (cfg : Config) (cd : Cooldown)
    (df_5m df_1m : List Row) (symbol : String) (t : ℚ) (current : Row)
    (hl : getLastRow df_1m = some current) (hatr : current.atr < cfg.ATR_MIN_VALUE) :
    (analyze cfg cd df_5m df_1m symbol t).1 = none := by
  have hfs : firstSignal cfg df_1m (analyze_trend df_5m) = none := by
    unfold firstSignal
    rw [check_buy_none_of_low_atr cfg df_1m (analyze_trend df_5m) current hl hatr]
    exact check_sell_none_of_low_atr cfg df_1m (analyze_trend df_5m) current hl hatr
  simp only [analyze, hfs]
  split_ifs <;> rfl

/-- Witness for C8: with volatility 1/2 below the floor 1 and every other
entry condition satisfied, no signal is returned. -/
theorem low_volatility_blocks_all_signals_witness :
    (analyze cfg0 emptyCd df5e df1a "EURUSD" 0).1 = none :=
  low_volatility_blocks_all_signals cfg0 emptyCd df5e df1a "EURUSD" 0
    ⟨101, 201 / 2, 0, some 56, 1 / 2⟩
    (by norm_num [getLastRow, df1a, rowPrev]) (by norm_num [cfg0])

/-- C10: every signal returned by the full analysis carries as its price the
close of the last row of the fast-timeframe DataFrame. -/
theorem signal_price_is_last_fast_close (cfg : Config) (cd : Cooldown)
    (df_5m df_1m : List Row) (symbol : String) (t : ℚ) (sig : Signal)
    (h : (analyze cfg cd df_5m df_1m symbol t).1 = some sig) :
    ∃ current, getLastRow df_1m = some current ∧ sig.price = current.close := by
  by_cases h1 : is_in_cooldown cfg cd symbol t = true
  · simp only [analyze, if_pos h1] at h
    exact absurd h (by simp)
  · by_cases h2 : (analyze_trend df_5m).valid = false
    · simp only [analyze, if_neg h1, if_pos h2] at h
      exact absurd h (by simp)
    · rcases hfs : firstSignal cfg df_1m (analyze_trend df_5m) with _ | ⟨st, r⟩
      · simp only [analyze, if_neg h1, if_neg h2, hfs] at h
        exact absurd h (by simp)
      · rcases hlr : getLastRow df_1m with _ | cur
        · simp only [analyze, if_neg h1, if_neg h2, hfs, hlr] at h
          exact absurd h (by simp)
        · simp only [analyze, if_neg h1, if_neg h2, hfs, hlr] at h
          change some (Signal.mk symbol st r t cur.close) = some sig at h
          have hsig := Option.some.inj h
          subst hsig
          exact ⟨cur, rfl, rfl⟩

/-- Witness for C10 at the concrete entry scenario. -/
theorem signal_price_is_last_fast_close_witness :
    ∃ current, getLastRow df1e = some current ∧ sigE.price = current.close :=
  signal_price_is_last_fast_close cfg0 emptyCd df5e df1e "EURUSD" 0 sigE
    (by norm_num +decide [abs_le, analyze, is_in_cooldown, analyze_trend, get_trend_direction,
      getLastRow, lastTwo, firstSignal, check_buy_conditions, check_sell_conditions,
      is_price_near_ema, qle, qlt, check_rsi_cross, check_candle_close, update_cooldown,
      isEntry, emptyCd, cfg0, df5e, df1e, rowBull, rowPrev, sigE])

/-- A ready-kind (non-entry) signal leaves the cooldown state unchanged. -/
theorem analyze_non_entry_keeps_cooldown (cfg : Config) (cd : Cooldown)
    (df_5m df_1m : List Row) (symbol : String) (t : ℚ) (sig : Signal)
    (h : (analyze cfg cd df_5m df_1m symbol t).1 = some sig)
    (hne : isEntry sig.type = false) :
    (analyze cfg cd df_5m df_1m symbol t).2 = cd := by
  by_cases h1 : is_in_cooldown cfg cd symbol t = true
  · simp only [analyze, if_pos h1] at h
    exact absurd h (by simp)
  · by_cases h2 : (analyze_trend df_5m).valid = false
    · simp only [analyze, if_neg h1, if_pos h2] at h
      exact absurd h (by simp)
    · rcases hfs : firstSignal cfg df_1m (analyze_trend df_5m) with _ | ⟨st, r⟩
      · simp only [analyze, if_neg h1, if_neg h2, hfs] at h
        exact absurd h (by simp)
      · rcases hlr : getLastRow df_1m with _ | cur
        · simp only [analyze, if_neg h1, if_neg h2, hfs, hlr] at h
          exact absurd h (by simp)
        · simp only [analyze, if_neg h1, if_neg h2, hfs, hlr] at h
          change some (Signal.mk symbol st r t cur.close) = some sig at h
          have hsig := Option.some.inj h
          rw [← hsig] at hne
          have hst : isEntry st = false := hne
          simp only [analyze, if_neg h1, if_neg h2, hfs, hlr, hst]
          simp

/-- An evaluation that returns no signal leaves the cooldown state unchanged. -/
theorem analyze_none_keeps_cooldown (cfg : Config) (cd : Cooldown)
    (df_5m df_1m : List Row) (symbol : String) (t : ℚ)
    (h : (analyze cfg cd df_5m df_1m symbol t).1 = none) :
    (analyze cfg cd df_5m df_1m symbol t).2 = cd := by
  by_cases h1 : is_in_cooldown cfg cd symbol t = true
  · simp only [analyze, if_pos h1]
  · by_cases h2 : (analyze_trend df_5m).valid = false
    · simp only [analyze, if_neg h1, if_pos h2]
    · rcases hfs : firstSignal cfg df_1m (analyze_trend df_5m) with _ | ⟨st, r⟩
      · simp only [analyze, if_neg h1, if_neg h2, hfs]
      · rcases hlr : getLastRow df_1m with _ | cur
        · obtain ⟨⟨p, c⟩, hpc⟩ := firstSignal_some_lastTwo cfg df_1m (analyze_trend df_5m) (st, r) hfs
          have hc := lastTwo_getLastRow df_1m p c hpc
          rw [hlr] at hc
          exact absurd hc (by simp)
        · simp only [analyze, if_neg h1, if_neg h2, hfs, hlr] at h
          exact absurd h (by simp)

/-- An entry-kind signal records the evaluation time for its instrument in
the cooldown state. -/
theorem analyze_entry_updates_cooldown (cfg : Config) (cd : Cooldown)
    (df_5m df_1m : List Row) (symbol : String) (t : ℚ) (sig : Signal)
    (h : (analyze cfg cd df_5m df_1m symbol t).1 = some sig)
    (hent : isEntry sig.type = true) :
    (analyze cfg cd df_5m df_1m symbol t).2 = update_cooldown cd symbol t := by
  by_cases h1 : is_in_cooldown cfg cd symbol t = true
  · simp only [analyze, if_pos h1] at h
    exact absurd h (by simp)
  · by_cases h2 : (analyze_trend df_5m).valid = false
    · simp only [analyze, if_neg h1, if_pos h2] at h
      exact absurd h (by simp)
    · rcases hfs : firstSignal cfg df_1m (analyze_trend df_5m) with _ | ⟨st, r⟩
      · simp only [analyze, if_neg h1, if_neg h2, hfs] at h
        exact absurd h (by simp)
      · rcases hlr : getLastRow df_1m with _ | cur
        · simp only [analyze, if_neg h1, if_neg h2, hfs, hlr] at h
          exact absurd h (by simp)
        · simp only [analyze, if_neg h1, if_neg h2, hfs, hlr] at h
          change some (Signal.mk symbol st r t cur.close) = some sig at h
          have hsig := Option.some.inj h
          rw [← hsig] at hent
          have hst : isEntry st = true := hent
          simp only [analyze, if_neg h1, if_neg h2, hfs, hlr, hst]
          simp

/-- C2 (amended): the cooldown state is written only when an entry-kind
signal is returned — a ready signal or no signal leaves it unchanged — and
after an entry signal every evaluation of the same instrument within the
configured window returns no signal at all (entry or ready alike), because
the cooldown check guards the whole evaluation. -/
theorem cooldown_entry_only_and_blocks_window (cfg : Config) (cd : Cooldown)
    (df_5m df_1m : List Row) (symbol : String) (t0 : ℚ) :
    (∀ sig, (analyze cfg cd df_5m df_1m symbol t0).1 = some sig →
        isEntry sig.type = false → (analyze cfg cd df_5m df_1m symbol t0).2 = cd) ∧
    ((analyze cfg cd df_5m df_1m symbol t0).1 = none →
        (analyze cfg cd df_5m df_1m symbol t0).2 = cd) ∧
    (∀ sig, (analyze cfg cd df_5m df_1m symbol t0).1 = some sig →
        isEntry sig.type = true →
        ∀ (df_5m' df_1m' : List Row) (t1 : ℚ), t1 - t0 < cfg.SIGNAL_COOLDOWN_CANDLES →
          (analyze cfg ((analyze cfg cd df_5m df_1m symbol t0).2) df_5m' df_1m' symbol t1).1 =
            none) := by
  refine ⟨fun sig h hne => analyze_non_entry_keeps_cooldown cfg cd df_5m df_1m symbol t0 sig h hne,
    fun h => analyze_none_keeps_cooldown cfg cd df_5m df_1m symbol t0 h,
    fun sig h hent df_5m' df_1m' t1 ht => ?_⟩
  rw [analyze_entry_updates_cooldown cfg cd df_5m df_1m symbol t0 sig h hent]
  have hcool : is_in_cooldown cfg (update_cooldown cd symbol t0) symbol t1 = true := by
    simp [is_in_cooldown, update_cooldown]
    exact ht
  simp only [analyze, if_pos hcool]

/-- Counterexample for C2: with the scenario configuration, an entry signal
at time 0 puts EURUSD in cooldown; at time 1 the same data that yields a
ready signal from a clean state (second conjunct: the ready conditions hold)
yields no signal at all through the updated state (third conjunct), so a
ready signal does not survive the cooldown window. -/
theorem cooldown_blocks_ready_counterexample :
    (analyze cfg0 emptyCd df5e df1e "EURUSD" 0).1 = some sigE ∧
    (analyze cfg0 emptyCd df5e df1r "EURUSD" 1).1 = some sigR ∧
    (analyze cfg0 ((analyze cfg0 emptyCd df5e df1e "EURUSD" 0).2) df5e df1r "EURUSD" 1).1 =
      none := by
  refine ⟨?_, ?_, ?_⟩
  · norm_num +decide [abs_le, analyze, is_in_cooldown, analyze_trend, get_trend_direction,
      getLastRow, lastTwo, firstSignal, check_buy_conditions, check_sell_conditions,
      is_price_near_ema, qle, qlt, check_rsi_cross, check_candle_close, update_cooldown,
      isEntry, emptyCd, cfg0, df5e, df1e, rowBull, rowPrev, sigE]
  · norm_num +decide [abs_le, analyze, is_in_cooldown, analyze_trend, get_trend_direction,
      getLastRow, lastTwo, firstSignal, check_buy_conditions, check_sell_conditions,
      is_price_near_ema, qle, qlt, check_rsi_cross, check_candle_close, update_cooldown,
      isEntry, emptyCd, cfg0, df5e, df1r, rowBull, rowPrev, sigR]
  · norm_num +decide [abs_le, analyze, is_in_cooldown, analyze_trend, get_trend_direction,
      getLastRow, lastTwo, firstSignal, check_buy_conditions, check_sell_conditions,
      is_price_near_ema, qle, qlt, check_rsi_cross, check_candle_close, update_cooldown,
      isEntry, emptyCd, cfg0, df5e, df1e, df1r, rowBull, rowPrev]

/-- C3: evaluating the code on a fulfilled buy entry: the returned record is
exactly `Signal.mk symbol type reason timestamp price` — the stop-loss
`close − STOP_LOSS_POINTS · 0.0001` and target `close + TAKE_PROFIT_POINTS ·
0.0001` occur only inside the reason message, and the record has no
direction, stop-loss or take-profit field of its own. -/
theorem entry_signal_record_fields :
    (analyze cfg0 emptyCd df5e df1e "GBPUSD" 7).1 =
      some ⟨"GBPUSD", .entry_buy,
        .entryBuy 101 (201 / 2) (some 56) (101 - 10 * (1 / 10000)) (101 + 20 * (1 / 10000)),
        7, 101⟩ := by
  norm_num +decide [abs_le, analyze, is_in_cooldown, analyze_trend, get_trend_direction,
    getLastRow, lastTwo, firstSignal, check_buy_conditions, check_sell_conditions,
    is_price_near_ema, qle, qlt, check_rsi_cross, check_candle_close, update_cooldown,
    isEntry, emptyCd, cfg0, df5e, df1e, rowBull, rowPrev]
